import Mathlib

/-!
Shallow embedding of the dev-collab team/project/task management
application: the relational data model, the SQL access-control
functions and row-level-security policies from
`supabase/migrations/`, and the client-side state logic from
`src/hooks` (notifications), `src/components/forms/TaskForm.tsx`,
`src/components/TaskDetails.tsx`, `src/pages/Team.tsx` and
`src/utils/notificationManager.ts`.

IDs (uuid columns) are modelled as `Nat`, timestamps as `Nat`,
SQL booleans as `Bool`; the database is a record of row lists.
-/

namespace DevCollab

/-- `user_role` enum: CREATE TYPE public.user_role AS ENUM ('developer', 'admin'). -/
inductive Role where
  | developer
  | admin
deriving DecidableEq, Repr

/-- `task_status` enum from the initial migration. -/
inductive TaskStatus where
  | todo
  | in_progress
  | review
  | to_modify
  | completed
  | cancelled
deriving DecidableEq, Repr

/-- Row of `public.profiles` (columns relevant to access control). -/
structure Profile where
  user_id : Nat
  email : String
  first_name : String
  last_name : String
  role : Role
  is_approved : Bool
deriving DecidableEq, Repr

/-- Row of `public.projects`. -/
structure Project where
  id : Nat
  name : String
  status : String
  created_by : Nat
deriving DecidableEq, Repr

/-- Row of `public.project_members`. -/
structure ProjectMember where
  project_id : Nat
  user_id : Nat
  is_leader : Bool
deriving DecidableEq, Repr

/-- Row of `public.tasks` (after the migration that dropped `assigned_to`). -/
structure TaskRow where
  id : Nat
  title : String
  status : TaskStatus
  project_id : Nat
  created_by : Nat
deriving DecidableEq, Repr

/-- Database state: the tables the access-control claims range over. -/
structure Database where
  profiles : List Profile
  projects : List Project
  project_members : List ProjectMember
  tasks : List TaskRow
deriving Repr

/-- SQL function `public.has_role(_user_id, _role)`:
EXISTS (SELECT 1 FROM profiles WHERE user_id = _user_id AND role = _role AND is_approved = true). -/
def has_role (db : Database) (uid : Nat) (r : Role) : Bool :=
  db.profiles.any (fun p => p.user_id == uid && p.role == r && p.is_approved)

/-- SQL function `public.is_admin(_user_id)`: has_role(_user_id, 'admin'). -/
def is_admin (db : Database) (uid : Nat) : Bool :=
  has_role db uid Role.admin

/-- SQL function `public.can_access_project(_user_id, _project_id)`:
EXISTS (SELECT 1 FROM project_members pm JOIN profiles p ON p.user_id = pm.user_id
 WHERE pm.project_id = _project_id AND pm.user_id = _user_id AND p.is_approved = true)
OR is_admin(_user_id). -/
def can_access_project (db : Database) (uid : Nat) (projectId : Nat) : Bool :=
  (db.project_members.any (fun pm =>
    pm.project_id == projectId && pm.user_id == uid &&
      db.profiles.any (fun p => p.user_id == pm.user_id && p.is_approved)))
  || is_admin db uid

/-- SQL function `public.get_current_user_role()`:
SELECT role::text FROM profiles WHERE user_id = auth.uid() LIMIT 1. -/
def get_current_user_role (db : Database) (uid : Nat) : Option Role :=
  (db.profiles.find? (fun p => p.user_id == uid)).map (fun p => p.role)

/-- Final state of the UPDATE row-level-security policies on `public.profiles`
(after the "fix infinite recursion" migration): the permissive policies
"Users can update own profile basic info" (USING auth.uid() = user_id,
WITH CHECK auth.uid() = user_id) and "Admins can manage all profiles"
(USING get_current_user_role() = 'admin').  An UPDATE of `oldRow` into
`newRow` by `uid` is allowed when some policy passes both its USING test
on the old row and its WITH CHECK test on the new row.  (The accompanying
CHECK constraints only require `role` and `is_approved` to be non-null,
which is automatic in this model.) -/
def profiles_update_allowed (db : Database) (uid : Nat)
    (oldRow newRow : Profile) : Bool :=
  (uid == oldRow.user_id && uid == newRow.user_id)
  || ((get_current_user_role db uid == some Role.admin) &&
      (get_current_user_role db uid == some Role.admin))

/-- SELECT visibility on `public.projects`: policy
"Users can view accessible projects" USING can_access_project(auth.uid(), id),
together with the FOR ALL policy "Admins can manage projects" USING is_admin. -/
def visibleProjects (db : Database) (uid : Nat) : List Project :=
  db.projects.filter (fun p => can_access_project db uid p.id || is_admin db uid)

/-- SELECT visibility on `public.tasks`: policy
"Users can view tasks in accessible projects" USING
can_access_project(auth.uid(), project_id), together with the FOR ALL policy
"Admins can manage tasks" USING is_admin. -/
def visibleTasks (db : Database) (uid : Nat) : List TaskRow :=
  db.tasks.filter (fun t => can_access_project db uid t.project_id || is_admin db uid)

/-- Newly inserted row in `auth.users` as seen by the signup trigger. -/
structure AuthUser where
  id : Nat
  email : String
  meta_first_name : Option String
  meta_last_name : Option String
deriving Repr

/-- Trigger function `public.handle_new_user()` (latest version): inserts
(user_id, email, first_name, last_name) with COALESCE of the metadata names;
`role` and `is_approved` are filled by the column defaults
`role user_role DEFAULT 'developer'` and `is_approved BOOLEAN DEFAULT false`. -/
def handle_new_user (u : AuthUser) : Profile :=
  { user_id := u.id
    email := u.email
    first_name := u.meta_first_name.getD ""
    last_name := u.meta_last_name.getD ""
    role := Role.developer
    is_approved := false }

/-- Signup: the AFTER INSERT trigger `on_auth_user_created` on `auth.users`
runs `handle_new_user`, adding the new profile row. -/
def signup (db : Database) (u : AuthUser) : Database :=
  { db with profiles := handle_new_user u :: db.profiles }

/-- Predicate written from the spec wording of `can_access`:
"user is admin, OR a ProjectMember row exists for (project, user) AND that
user's profile is approved" — with "is admin" read off the data model as
`role = admin`. Used only to compare against `can_access_project`. -/
def can_access_spec (db : Database) (uid : Nat) (projectId : Nat) : Bool :=
  db.profiles.any (fun p => p.user_id == uid && p.role == Role.admin)
  || (db.project_members.any (fun pm => pm.project_id == projectId && pm.user_id == uid)
      && db.profiles.any (fun p => p.user_id == uid && p.is_approved))

/-- Sample database for the profile-update policy: a single approved
non-admin developer, user 1. -/
def devDb : Database :=
  { profiles := [{ user_id := 1, email := "", first_name := "", last_name := ""
                   role := Role.developer, is_approved := true }]
    projects := []
    project_members := []
    tasks := [] }

/-- The developer profile row of `devDb`. -/
def devProfile : Profile :=
  { user_id := 1, email := "", first_name := "", last_name := ""
    role := Role.developer, is_approved := true }

/-- Claim C1: the final profiles UPDATE policy accepts a self-update by the
non-admin user 1 that changes `role` to admin (and likewise one that flips
`is_approved`), even though user 1 is not an admin: the policy layer does
NOT reject role/approval changes in self-updates, contradicting the claim
(and the migration's own comment "no role/approval changes"). -/
theorem self_escalation_allowed :
    profiles_update_allowed devDb 1 devProfile { devProfile with role := Role.admin } = true
    ∧ profiles_update_allowed devDb 1 devProfile { devProfile with is_approved := false } = true
    ∧ devProfile.role ≠ Role.admin
    ∧ get_current_user_role devDb 1 ≠ some Role.admin
    ∧ is_admin devDb 1 = false := by
  refine ⟨rfl, rfl, by decide, by decide, by decide⟩

/-- Database with a single unapproved admin profile and one project,
no membership rows. -/
def unapprovedAdminDb : Database :=
  { profiles := [{ user_id := 1, email := "", first_name := "", last_name := ""
                   role := Role.admin, is_approved := false }]
    projects := [{ id := 10, name := "", status := "active", created_by := 1 }]
    project_members := []
    tasks := [] }

/-- Claim C2, counterexample: for the unapproved admin (user 1) the spec
wording grants access ("user is an admin") but the code's
`can_access_project` denies it, because `is_admin` goes through `has_role`,
which also requires `is_approved = true`.  So the claimed iff fails. -/
theorem can_access_spec_mismatch :
    can_access_spec unapprovedAdminDb 1 10 = true
    ∧ can_access_project unapprovedAdminDb 1 10 = false := by
  decide

/-- Propositional description of `can_access_project`, shared by the
access-control theorems below. -/
lemma can_access_project_eq_true (db : Database) (uid projectId : Nat) :
    can_access_project db uid projectId = true ↔
      ((∃ p ∈ db.profiles, p.user_id = uid ∧ p.role = Role.admin ∧ p.is_approved = true)
       ∨ (∃ pm ∈ db.project_members, pm.project_id = projectId ∧ pm.user_id = uid ∧
            ∃ p ∈ db.profiles, p.user_id = pm.user_id ∧ p.is_approved = true)) := by
  simp only [can_access_project, is_admin, has_role, Bool.or_eq_true, List.any_eq_true,
    Bool.and_eq_true, beq_iff_eq]
  constructor
  · rintro (⟨pm, hpm, ⟨hproj, huid⟩, p, hp, hpu, hap⟩ | ⟨p, hp, ⟨hpu, hrole⟩, hap⟩)
    · exact Or.inr ⟨pm, hpm, hproj, huid, p, hp, hpu, hap⟩
    · exact Or.inl ⟨p, hp, hpu, hrole, hap⟩
  · rintro (⟨p, hp, hpu, hrole, hap⟩ | ⟨pm, hpm, hproj, huid, p, hp, hpu, hap⟩)
    · exact Or.inr ⟨p, hp, ⟨hpu, hrole⟩, hap⟩
    · exact Or.inl ⟨pm, hpm, ⟨hproj, huid⟩, p, hp, hpu, hap⟩

/-- Claim C2, amended: `can_access_project` holds iff the user is an
*approved* admin (role = admin and is_approved), or a ProjectMember row
exists for (project, user) whose user's profile is approved. -/
theorem can_access_project_iff (db : Database) (uid projectId : Nat) :
    can_access_project db uid projectId = true ↔
      ((∃ p ∈ db.profiles, p.user_id = uid ∧ p.role = Role.admin ∧ p.is_approved = true)
       ∨ (∃ pm ∈ db.project_members, pm.project_id = projectId ∧ pm.user_id = uid ∧
            ∃ p ∈ db.profiles, p.user_id = pm.user_id ∧ p.is_approved = true)) :=
  can_access_project_eq_true db uid projectId

/-- Claim C7: for every database state and every new authenticated identity,
signup creates that user's profile automatically with `role = developer` and
`is_approved = false`. -/
theorem signup_creates_unapproved_developer (db : Database) (u : AuthUser) :
    ∃ p ∈ (signup db u).profiles,
      p.user_id = u.id ∧ p.role = Role.developer ∧ p.is_approved = false := by
  exact ⟨handle_new_user u, by simp [signup], rfl, rfl, rfl⟩

/-- Claim C3: an unapproved user (every profile row of theirs has
`is_approved = false`, whatever its role) can access no project, and both
the project and the task visibility queries are empty for them. -/
theorem unapproved_user_sees_nothing (db : Database) (uid : Nat)
    (h : ∀ p ∈ db.profiles, p.user_id = uid → p.is_approved = false) :
    (∀ projectId, can_access_project db uid projectId = false)
    ∧ visibleProjects db uid = [] ∧ visibleTasks db uid = [] := by
  have hacc : ∀ projectId, can_access_project db uid projectId = false := by
    intro projectId
    rw [Bool.eq_false_iff]
    intro hT
    rcases (can_access_project_eq_true db uid projectId).mp hT with
      ⟨p, hp, hpu, _, hap⟩ | ⟨pm, _, _, huid, p, hp, hpu, hap⟩
    · rw [h p hp hpu] at hap; exact Bool.false_ne_true hap
    · rw [h p hp (by rw [hpu, huid])] at hap; exact Bool.false_ne_true hap
  have hadm : is_admin db uid = false := by
    have := hacc 0
    rw [can_access_project, Bool.or_eq_false_iff] at this
    exact this.2
  refine ⟨hacc, ?_, ?_⟩
  · rw [visibleProjects, List.filter_eq_nil_iff]
    intro p _
    simp [hacc p.id, hadm]
  · rw [visibleTasks, List.filter_eq_nil_iff]
    intro t _
    simp [hacc t.project_id, hadm]

/-- Database for the C3 witness: one unapproved admin (user 4), one project
with a membership row for user 4, and one task in that project. -/
def unapprovedMemberDb : Database :=
  { profiles := [{ user_id := 4, email := "", first_name := "", last_name := ""
                   role := Role.admin, is_approved := false }]
    projects := [{ id := 10, name := "", status := "active", created_by := 4 }]
    project_members := [{ project_id := 10, user_id := 4, is_leader := false }]
    tasks := [{ id := 20, title := "", status := TaskStatus.todo, project_id := 10
                created_by := 4 }] }

/-- Witness for C3 at a concrete database. -/
theorem unapproved_user_sees_nothing_witness :
    can_access_project unapprovedMemberDb 4 10 = false
    ∧ visibleProjects unapprovedMemberDb 4 = []
    ∧ visibleTasks unapprovedMemberDb 4 = [] :=
  have h := unapproved_user_sees_nothing unapprovedMemberDb 4 (by decide)
  ⟨h.1 10, h.2.1, h.2.2⟩

/-- Row of `public.subtasks` (fields used by TaskDetails.tsx). -/
structure Subtask where
  id : Nat
  task_id : Nat
  title : String
  is_completed : Bool
  created_by : Nat
deriving DecidableEq, Repr

/-- `toggleSubtask` from TaskDetails.tsx: updates the subtask row to
`is_completed = !isCompleted` (where `isCompleted` is the current value the
caller read) and mirrors the same flip in local state, touching no other
field and no other subtask. -/
def toggleSubtask (subtasks : List Subtask) (subtaskId : Nat)
    (isCompleted : Bool) : List Subtask :=
  subtasks.map (fun st =>
    if st.id == subtaskId then { st with is_completed := !isCompleted } else st)

/-- Claim C8: toggling a subtask whose completion flag is `b` and then
toggling it again (the second call sees the new current value `!b`) restores
the original subtask list exactly: the flip is an involution and changes no
other state. -/
theorem toggleSubtask_involution (sts : List Subtask) (subtaskId : Nat) (b : Bool)
    (h : ∀ st ∈ sts, st.id = subtaskId → st.is_completed = b) :
    toggleSubtask (toggleSubtask sts subtaskId b) subtaskId (!b) = sts := by
  induction sts with
  | nil => rfl
  | cons a t ih =>
    have htail := ih (fun st hst => h st (List.mem_cons_of_mem a hst))
    simp only [toggleSubtask, List.map_cons, List.cons.injEq] at htail ⊢
    refine ⟨?_, htail⟩
    cases haid : (a.id == subtaskId) with
    | true =>
      have hcomp : a.is_completed = b :=
        h a (List.mem_cons_self a t) (by exact beq_iff_eq.mp haid)
      cases a
      simp_all
    | false => simp [haid]

/-- One-element subtask list for the C8 witness. -/
def sampleSubtasks : List Subtask :=
  [{ id := 1, task_id := 5, title := "write tests", is_completed := false
     created_by := 2 }]

/-- Witness for C8 at a concrete subtask list. -/
theorem toggleSubtask_involution_witness :
    toggleSubtask (toggleSubtask sampleSubtasks 1 false) 1 (!false) = sampleSubtasks :=
  toggleSubtask_involution sampleSubtasks 1 false (by decide)

/-- Row of `public.notifications` as held by the client
(interface `Notification` in the useNotifications hook). -/
structure Notif where
  id : Nat
  user_id : Nat
  title : String
  message : String
  read : Bool
  created_at : Nat
deriving DecidableEq, Repr

/-- Local state of the useNotifications hook: the `notifications` list and
the separately maintained `unreadCount` counter. -/
structure NotifState where
  notifications : List Notif
  unreadCount : Nat
deriving DecidableEq, Repr

/-- `markAsRead` from the useNotifications hook: backend update of the row,
then locally `map (n.id = id ? { ...n, read: true } : n)` and
`unreadCount := Math.max(0, prev - 1)` (truncated subtraction). -/
def markAsRead (s : NotifState) (notificationId : Nat) : NotifState :=
  { notifications := s.notifications.map (fun n =>
      if n.id == notificationId then { n with read := true } else n)
    unreadCount := s.unreadCount - 1 }

/-- `markAllAsRead` from the useNotifications hook: every held notification
gets `read := true` and the counter is set to 0. -/
def markAllAsRead (s : NotifState) : NotifState :=
  { notifications := s.notifications.map (fun n => { n with read := true })
    unreadCount := 0 }

/-- `deleteNotification` from the useNotifications hook: look the id up in
the held list, filter it out, and decrement the counter (floored at 0) only
when the found notification was unread. -/
def deleteNotification (s : NotifState) (notificationId : Nat) : NotifState :=
  let notification := s.notifications.find? (fun n => n.id == notificationId)
  { notifications := s.notifications.filter (fun n => !(n.id == notificationId))
    unreadCount :=
      match notification with
      | some n => if !n.read then s.unreadCount - 1 else s.unreadCount
      | none => s.unreadCount }

/-- Realtime INSERT handler of the useNotifications hook: prepend the new
notification and increment the counter (no trimming of the list). -/
def handleInsertEvent (s : NotifState) (n : Notif) : NotifState :=
  { notifications := n :: s.notifications
    unreadCount := s.unreadCount + 1 }

/-- Realtime UPDATE handler of the useNotifications hook: replace the
matching notification with the payload; the counter is not touched. -/
def handleUpdateEvent (s : NotifState) (updated : Notif) : NotifState :=
  { notifications := s.notifications.map (fun n =>
      if n.id == updated.id then updated else n)
    unreadCount := s.unreadCount }

/-- Realtime DELETE handler of the useNotifications hook: drop the matching
notification and decrement the counter when the payload row was unread. -/
def handleDeleteEvent (s : NotifState) (deleted : Notif) : NotifState :=
  { notifications := s.notifications.filter (fun n => !(n.id == deleted.id))
    unreadCount := if !deleted.read then s.unreadCount - 1 else s.unreadCount }

/-- Number of held notifications whose read flag is false. -/
def countUnread (l : List Notif) : Nat :=
  (l.filter (fun n => !n.read)).length

/-- The invariant of claim C6: the counter agrees with the held list. -/
def consistent (s : NotifState) : Prop :=
  s.unreadCount = countUnread s.notifications

/-- Notification state for the C5 counterexample: two unread notifications,
counter consistent. -/
def twoUnreadState : NotifState :=
  { notifications :=
      [{ id := 1, user_id := 7, title := "", message := "", read := false, created_at := 3 },
       { id := 2, user_id := 7, title := "", message := "", read := false, created_at := 4 }]
    unreadCount := 2 }

/-- Claim C5, counterexample: after `markAsRead` on notification 1 it is
already read, yet applying `markAsRead` to it a second time changes the
state — the unread count drops from 1 to 0 although notification 2 is still
unread.  `markAsRead` is not idempotent on the unread count. -/
theorem markAsRead_second_application_changes_count :
    ((markAsRead twoUnreadState 1).notifications.all
        (fun n => !(n.id == 1) || n.read)) = true
    ∧ (markAsRead twoUnreadState 1).unreadCount = 1
    ∧ (markAsRead (markAsRead twoUnreadState 1) 1).unreadCount = 0 := by
  decide

/-- Claim C5, amended: `markAllAsRead` is idempotent on the whole state, and
a repeated `markAsRead` leaves the notification list unchanged; but each
application of `markAsRead` decrements the unread count by one (floored at
zero), so the count is unchanged by a second application only when it is
already zero. -/
theorem mark_read_idempotence_amended (s : NotifState) (notificationId : Nat) :
    markAllAsRead (markAllAsRead s) = markAllAsRead s
    ∧ (markAsRead (markAsRead s notificationId) notificationId).notifications
        = (markAsRead s notificationId).notifications
    ∧ (markAsRead s notificationId).unreadCount = s.unreadCount - 1 := by
  refine ⟨?_, ?_, rfl⟩
  · have hff : ((fun n => { n with read := true }) ∘ fun n => { n with read := true })
        = (fun n : Notif => { n with read := true }) := funext (fun _ => rfl)
    show NotifState.mk _ _ = NotifState.mk _ _
    rw [markAllAsRead, List.map_map, hff]
  · show List.map _ (List.map _ _) = _
    rw [List.map_map]
    refine List.map_congr_left ?_
    intro n _
    by_cases hn : n.id = notificationId
    · simp [hn]
    · simp [hn]

/-- Marking one unread notification read (by id) lowers the unread count of
the list by exactly one, provided ids are pairwise distinct and an unread
notification with that id is present. -/
lemma countUnread_markRead (l : List Notif) (i : Nat)
    (hnd : l.Pairwise (fun a b => a.id ≠ b.id))
    (hex : ∃ n ∈ l, n.id = i ∧ n.read = false) :
    countUnread (l.map (fun n => if n.id == i then { n with read := true } else n))
      = countUnread l - 1 ∧ 1 ≤ countUnread l := by
  induction l with
  | nil => simp at hex
  | cons a t ih =>
    rw [List.pairwise_cons] at hnd
    obtain ⟨ha, ht⟩ := hnd
    by_cases hai : a.id = i
    · have har : a.read = false := by
        rcases hex with ⟨n, hn, hni, hnr⟩
        rcases List.mem_cons.mp hn with rfl | hnt
        · exact hnr
        · exact absurd (hai.trans hni.symm) (ha n hnt)
      have htail : t.map (fun m => if m.id == i then { m with read := true } else m) = t :=
        calc t.map (fun m => if m.id == i then { m with read := true } else m)
            = t.map id := by
              refine List.map_congr_left ?_
              intro m hm
              have hmi : m.id ≠ i := fun hEq => (ha m hm) (hai.trans hEq.symm)
              simp [hmi]
          _ = t := List.map_id t
      have hhead : (if a.id == i then { a with read := true } else a)
          = { a with read := true } := by simp [hai]
      rw [List.map_cons, htail, hhead, countUnread, countUnread,
        List.filter_cons, List.filter_cons, har]
      simp
    · have hwit : ∃ n ∈ t, n.id = i ∧ n.read = false := by
        rcases hex with ⟨n, hn, hni, hnr⟩
        rcases List.mem_cons.mp hn with rfl | hnt
        · exact absurd hni hai
        · exact ⟨n, hnt, hni, hnr⟩
      obtain ⟨ih1, ih2⟩ := ih ht hwit
      have hhead : (if a.id == i then { a with read := true } else a) = a := by simp [hai]
      rw [List.map_cons, hhead, countUnread, countUnread,
        List.filter_cons, List.filter_cons]
      rw [countUnread, countUnread] at ih1
      rw [countUnread] at ih2
      cases har : a.read <;> simp at ih1 ⊢ <;> omega

/-- Removing the row `n` from the list by id changes the unread count by one
exactly when `n` was unread, provided ids are pairwise distinct. -/
lemma countUnread_eraseId (l : List Notif) (n : Notif)
    (hnd : l.Pairwise (fun a b => a.id ≠ b.id)) (hmem : n ∈ l) :
    countUnread (l.filter (fun m => !(m.id == n.id)))
      = countUnread l - (if n.read then 0 else 1)
    ∧ (n.read = false → 1 ≤ countUnread l) := by
  induction l with
  | nil => simp at hmem
  | cons a t ih =>
    rw [List.pairwise_cons] at hnd
    obtain ⟨ha, ht⟩ := hnd
    rcases List.mem_cons.mp hmem with rfl | hnt
    · have hfil : t.filter (fun m => !(m.id == n.id)) = t := by
        refine List.filter_eq_self.mpr ?_
        intro m hm
        have hne : m.id ≠ n.id := fun hEq => (ha m hm) hEq.symm
        simp [hne]
      have hhead : (!(n.id == n.id)) = false := by simp
      rw [List.filter_cons, hhead, if_neg Bool.false_ne_true, hfil, countUnread, countUnread,
        List.filter_cons]
      cases hnr : n.read <;> simp
    · have haid : (!(a.id == n.id)) = true := by
        have : a.id ≠ n.id := ha n hnt
        simp [this]
      obtain ⟨ih1, ih2⟩ := ih ht hnt
      rw [countUnread, countUnread, List.filter_cons, List.filter_cons, haid, if_pos rfl,
        List.filter_cons]
      rw [countUnread, countUnread] at ih1
      rw [countUnread] at ih2
      cases har : a.read <;> cases hnr : n.read <;>
        simp only [hnr, if_true, if_false] at ih1 <;> simp_all

/-- Notification state for the C6 counterexample: one unread notification,
counter consistent. -/
def oneUnreadState : NotifState :=
  { notifications :=
      [{ id := 1, user_id := 7, title := "", message := "", read := false, created_at := 1 }]
    unreadCount := 1 }

/-- The same notification with the read flag set, as an UPDATE payload. -/
def readPayload : Notif :=
  { id := 1, user_id := 7, title := "", message := "", read := true, created_at := 1 }

/-- Claim C6, counterexample: a realtime UPDATE event that flips a held
notification's read flag (e.g. it was marked read from another session)
replaces the row but leaves `unreadCount` untouched, so after this local
mutation the counter (1) no longer equals the number of held unread
notifications (0). -/
theorem update_event_breaks_unread_invariant :
    consistent oneUnreadState
    ∧ ¬ consistent (handleUpdateEvent oneUnreadState readPayload)
    ∧ (handleUpdateEvent oneUnreadState readPayload).unreadCount = 1
    ∧ countUnread (handleUpdateEvent oneUnreadState readPayload).notifications = 0 := by
  refine ⟨?_, ?_, by decide, by decide⟩ <;> unfold consistent <;> decide

/-- Claim C6, amended: starting from a consistent state with pairwise
distinct notification ids, the invariant `unreadCount = number of held
unread notifications` is preserved by `markAsRead` when the target id names
a held unread notification, by `markAllAsRead`, by `deleteNotification`, by
a realtime insert of an unread notification, and by a realtime delete whose
payload row is held.  (A realtime update event does not maintain it: see the
counterexample.) -/
theorem unread_count_invariant_preservation (s : NotifState) (i : Nat)
    (fresh dropped : Notif)
    (hnd : s.notifications.Pairwise (fun a b => a.id ≠ b.id))
    (hc : consistent s) :
    ((∃ n ∈ s.notifications, n.id = i ∧ n.read = false) → consistent (markAsRead s i))
    ∧ consistent (markAllAsRead s)
    ∧ consistent (deleteNotification s i)
    ∧ (fresh.read = false → consistent (handleInsertEvent s fresh))
    ∧ (dropped ∈ s.notifications → consistent (handleDeleteEvent s dropped)) := by
  unfold consistent at hc
  refine ⟨?_, ?_, ?_, ?_, ?_⟩
  · intro hex
    obtain ⟨h1, _⟩ := countUnread_markRead s.notifications i hnd hex
    show s.unreadCount - 1
      = countUnread (s.notifications.map (fun n =>
          if n.id == i then { n with read := true } else n))
    rw [hc, h1]
  · show (0 : Nat) = countUnread (s.notifications.map (fun n => { n with read := true }))
    have hnil : (s.notifications.map (fun n => { n with read := true })).filter
        (fun n => !n.read) = [] := by
      refine List.filter_eq_nil_iff.mpr ?_
      intro x hx
      rcases List.mem_map.mp hx with ⟨n, _, rfl⟩
      simp
    unfold countUnread
    rw [hnil]
    rfl
  · cases hf : s.notifications.find? (fun n => n.id == i) with
    | none =>
      have hnone := List.find?_eq_none.mp hf
      have hfil : s.notifications.filter (fun n => !(n.id == i)) = s.notifications := by
        refine List.filter_eq_self.mpr ?_
        intro m hm
        cases hmi : (m.id == i) with
        | true => exact absurd hmi (hnone m hm)
        | false => rfl
      show (match s.notifications.find? (fun n => n.id == i) with
            | some n => if !n.read then s.unreadCount - 1 else s.unreadCount
            | none => s.unreadCount)
        = countUnread (s.notifications.filter (fun n => !(n.id == i)))
      rw [hf, hfil]
      exact hc
    | some n =>
      have hnmem := List.mem_of_find?_eq_some hf
      have hpn := List.find?_some hf
      have hni : n.id = i := by simpa using hpn
      obtain ⟨h1, h2⟩ := countUnread_eraseId s.notifications n hnd hnmem
      show (match s.notifications.find? (fun m => m.id == i) with
            | some m => if !m.read then s.unreadCount - 1 else s.unreadCount
            | none => s.unreadCount)
        = countUnread (s.notifications.filter (fun m => !(m.id == i)))
      rw [hf, ← hni]
      show (if !n.read then s.unreadCount - 1 else s.unreadCount)
        = countUnread (s.notifications.filter (fun m => !(m.id == n.id)))
      cases hnr : n.read
      · have h3 := h2 hnr
        simp [hnr] at h1 ⊢
        omega
      · simp [hnr] at h1 ⊢
        omega
  · intro hfr
    show s.unreadCount + 1 = countUnread (fresh :: s.notifications)
    unfold countUnread
    rw [List.filter_cons, hfr]
    unfold countUnread at hc
    simp [hc]
  · intro hmem
    obtain ⟨h1, h2⟩ := countUnread_eraseId s.notifications dropped hnd hmem
    show (if !dropped.read then s.unreadCount - 1 else s.unreadCount)
      = countUnread (s.notifications.filter (fun m => !(m.id == dropped.id)))
    cases hdr : dropped.read
    · have h3 := h2 hdr
      simp [hdr] at h1 ⊢
      omega
    · simp [hdr] at h1 ⊢
      omega

/-- Notification state for the C6 witness: one unread and one read
notification, counter consistent. -/
def mixedState : NotifState :=
  { notifications :=
      [{ id := 1, user_id := 7, title := "", message := "", read := false, created_at := 1 },
       { id := 2, user_id := 7, title := "", message := "", read := true, created_at := 2 }]
    unreadCount := 1 }

/-- Fresh unread notification arriving over the realtime channel. -/
def freshNotif : Notif :=
  { id := 3, user_id := 7, title := "", message := "", read := false, created_at := 3 }

/-- The held read notification of `mixedState`, as a DELETE payload. -/
def droppedNotif : Notif :=
  { id := 2, user_id := 7, title := "", message := "", read := true, created_at := 2 }

/-- Witness for C6 at a concrete state. -/
theorem unread_count_invariant_preservation_witness :
    consistent (markAsRead mixedState 1)
    ∧ consistent (markAllAsRead mixedState)
    ∧ consistent (deleteNotification mixedState 1)
    ∧ consistent (handleInsertEvent mixedState freshNotif)
    ∧ consistent (handleDeleteEvent mixedState droppedNotif) :=
  have h := unread_count_invariant_preservation mixedState 1 freshNotif droppedNotif
    (by decide) (by unfold consistent; decide)
  ⟨h.1 (by decide), h.2.1, h.2.2.1, h.2.2.2.1 rfl, h.2.2.2.2 (by decide)⟩

/-- Row inserted into `public.notifications` by notificationManager.ts. -/
structure NotifRow where
  user_id : Nat
  title : String
  message : String
  type : String
  related_type : String
  related_id : Nat
deriving DecidableEq, Repr

/-- The rows built by `createTaskAssignmentNotifications` in
notificationManager.ts: one per assigned user id, with the fixed
assignment title and message. -/
def assignmentNotificationRows (taskId : Nat) (taskTitle : String)
    (userIds : List Nat) : List NotifRow :=
  userIds.map (fun uid =>
    { user_id := uid
      title := "📋 Nouvelle assignation de tâche"
      message := "Vous avez été assigné(e) à la tâche : \"" ++ taskTitle ++ "\""
      type := "assignment"
      related_type := "task"
      related_id := taskId })

/-- Outcome of calling a JS async function: either it resolves normally
with a value, or it rejects (raises) with an error. -/
inductive CallResult (α : Type) where
  | returns (a : α)
  | throws (e : String)
deriving Repr

/-- `createNotification` from notificationManager.ts: insert the single
row built from its argument; an insert error is thrown inside the try
block, caught by the surrounding catch, logged, and the function returns
normally either way.  The returned value records the rows actually
inserted. -/
def createNotification (data : NotifRow) (insertError : Option String) :
    CallResult (List NotifRow) :=
  match insertError with
  | some _ => CallResult.returns []
  | none => CallResult.returns [data]

/-- `createTaskAssignmentNotifications` from notificationManager.ts: build
one row per user id and insert them; an insert error is thrown inside the
try block and caught by the surrounding catch (logged, nothing inserted,
normal return).  The returned value records the rows actually inserted. -/
def createTaskAssignmentNotifications (taskId : Nat) (taskTitle : String)
    (assignedUserIds : List Nat) (insertError : Option String) :
    CallResult (List NotifRow) :=
  let notifications := assignmentNotificationRows taskId taskTitle assignedUserIds
  match insertError with
  | some _ => CallResult.returns []
  | none => CallResult.returns notifications

/-- Backend responses observed by the update branch of TaskForm.tsx
`handleSubmit`: the current `task_assignments` rows for the task, and the
error outcome of each subsequent write. -/
structure UpdateBackend where
  currentAssignments : List Nat
  taskUpdateError : Option String
  assignInsertError : Option String
  notifInsertError : Option String
deriving Repr

/-- Toast shown at the end of the TaskForm submit flow. -/
inductive Toast where
  | success
  | failure
deriving DecidableEq, Repr

/-- Update branch of `handleSubmit` in TaskForm.tsx: read the current
assignments, compute `newUserIds` (assigned users not already assigned),
update the task, delete and re-insert the assignments, and create
notifications for the new user ids only; any error thrown inside the try
block lands in the catch, which shows the failure toast.  Returns the toast
shown and the notification rows inserted. -/
def handleSubmitUpdate (taskId : Nat) (title : String)
    (assigned_users : List Nat) (b : UpdateBackend) : Toast × List NotifRow :=
  let currentUserIds := b.currentAssignments
  let newUserIds := assigned_users.filter (fun uid => !(currentUserIds.contains uid))
  match b.taskUpdateError with
  | some _ => (Toast.failure, [])
  | none =>
    if assigned_users.length > 0 then
      match b.assignInsertError with
      | some _ => (Toast.failure, [])
      | none =>
        if newUserIds.length > 0 then
          match createTaskAssignmentNotifications taskId title newUserIds
              b.notifInsertError with
          | CallResult.returns rows => (Toast.success, rows)
          | CallResult.throws _ => (Toast.failure, [])
        else (Toast.success, [])
    else (Toast.success, [])

/-- The notification rows for a list of user ids contain one row per
occurrence of each user id. -/
lemma count_in_rows (taskId : Nat) (taskTitle : String) (ids : List Nat) (u : Nat) :
    ((assignmentNotificationRows taskId taskTitle ids).filter
        (fun r => r.user_id == u)).length
      = (ids.filter (fun x => x == u)).length := by
  induction ids with
  | nil => rfl
  | cons a t ih =>
    simp only [assignmentNotificationRows, List.map_cons, List.filter_cons] at ih ⊢
    cases hau : (a == u)
    · simp only [hau, if_neg Bool.false_ne_true]
      exact ih
    · simp only [hau, if_true, List.length_cons]
      rw [ih]

/-- Counting occurrences of `u` among the members of `N` that are not in
`P`, for `N` without duplicates. -/
lemma count_new_ids (P N : List Nat) (u : Nat) (hN : N.Nodup) :
    ((N.filter (fun x => !(P.contains x))).filter (fun x => x == u)).length
      = if u ∈ N ∧ u ∉ P then 1 else 0 := by
  induction N with
  | nil => simp
  | cons a t ih =>
    rcases List.nodup_cons.mp hN with ⟨ha, ht⟩
    have iht := ih ht
    rw [List.filter_cons]
    by_cases hau : a = u
    · subst hau
      by_cases haP : a ∈ P
      · have hc : (!(P.contains a)) = false := by simp [haP]
        rw [hc, if_neg Bool.false_ne_true, iht]
        simp [ha, haP]
      · have hc : (!(P.contains a)) = true := by simp [haP]
        rw [hc, if_pos rfl, List.filter_cons]
        have hb : (a == a) = true := by simp
        rw [hb, if_pos rfl, List.length_cons, iht]
        simp [ha, haP]
    · by_cases haP : a ∈ P
      · have hc : (!(P.contains a)) = false := by simp [haP]
        rw [hc, if_neg Bool.false_ne_true, iht]
        simp [Ne.symm hau]
      · have hc : (!(P.contains a)) = true := by simp [haP]
        rw [hc, if_pos rfl, List.filter_cons]
        have hb : (a == u) = false := by simp [hau]
        rw [hb, if_neg Bool.false_ne_true, iht]
        simp [Ne.symm hau]

/-- Claim C4: when the task update and the assignment insert succeed and the
requested assignee list has no duplicates, the update flow creates exactly
one notification for each user in the new list that was not previously
assigned, and none for a user who was already assigned. -/
theorem reassignment_notifies_exactly_new_assignees (taskId : Nat) (title : String)
    (b : UpdateBackend) (assigned : List Nat) (u : Nat) (hN : assigned.Nodup)
    (h1 : b.taskUpdateError = none) (h2 : b.assignInsertError = none)
    (h3 : b.notifInsertError = none) :
    ((handleSubmitUpdate taskId title assigned b).2.filter
        (fun r => r.user_id == u)).length
      = if u ∈ assigned ∧ u ∉ b.currentAssignments then 1 else 0 := by
  simp only [handleSubmitUpdate, h1, h2, h3, createTaskAssignmentNotifications]
  by_cases hlen : assigned.length > 0
  · rw [if_pos hlen]
    by_cases hnew :
        (assigned.filter (fun uid => !(b.currentAssignments.contains uid))).length > 0
    · rw [if_pos hnew]
      show ((assignmentNotificationRows taskId title
          (assigned.filter (fun uid => !(b.currentAssignments.contains uid)))).filter
            (fun r => r.user_id == u)).length = _
      rw [count_in_rows, count_new_ids _ _ _ hN]
    · rw [if_neg hnew]
      have hempty : ∀ x ∈ assigned, x ∈ b.currentAssignments := by
        intro x hx
        by_contra hxP
        have hxmem : x ∈ assigned.filter (fun uid => !(b.currentAssignments.contains uid)) :=
          List.mem_filter.mpr ⟨hx, by simp [hxP]⟩
        exact hnew (List.length_pos.mpr (List.ne_nil_of_mem hxmem))
      have hcond : ¬(u ∈ assigned ∧ u ∉ b.currentAssignments) :=
        fun hand => hand.2 (hempty u hand.1)
      rw [if_neg hcond]
      rfl
  · have hnil : assigned = [] := List.length_eq_zero.mp (Nat.eq_zero_of_not_pos hlen)
    subst hnil
    rw [if_neg hlen]
    simp

/-- Backend for the C4 witness: the task is currently assigned to users 0
and 1 (the spec scenario's A and B) and every write succeeds. -/
def reassignBackend : UpdateBackend :=
  { currentAssignments := [0, 1]
    taskUpdateError := none
    assignInsertError := none
    notifInsertError := none }

/-- Witness for C4: reassigning from assignees 0 and 1 to 1 and 2 notifies
user 2 exactly once and user 1 (still assigned) not at all. -/
theorem reassignment_notifies_exactly_new_assignees_witness :
    (((handleSubmitUpdate 7 "Fix login" [1, 2] reassignBackend).2.filter
        (fun r => r.user_id == 2)).length
      = if 2 ∈ [1, 2] ∧ 2 ∉ reassignBackend.currentAssignments then 1 else 0)
    ∧ (((handleSubmitUpdate 7 "Fix login" [1, 2] reassignBackend).2.filter
        (fun r => r.user_id == 1)).length
      = if 1 ∈ [1, 2] ∧ 1 ∉ reassignBackend.currentAssignments then 1 else 0) :=
  ⟨reassignment_notifies_exactly_new_assignees 7 "Fix login" reassignBackend [1, 2] 2
      (by decide) rfl rfl rfl,
   reassignment_notifies_exactly_new_assignees 7 "Fix login" reassignBackend [1, 2] 1
      (by decide) rfl rfl rfl⟩

/-- Claim C10: `createNotification` and `createTaskAssignmentNotifications`
return normally for every backend outcome (all failures are caught inside),
and the task update flow shows the success toast whenever the task update
and the assignment insert succeed — whatever the notification insert did. -/
theorem notification_failures_never_propagate (row : NotifRow) (taskId : Nat)
    (title : String) (ids : List Nat) (e1 e2 : Option String)
    (b : UpdateBackend) (assigned : List Nat)
    (h1 : b.taskUpdateError = none) (h2 : b.assignInsertError = none) :
    (∃ rows, createNotification row e1 = CallResult.returns rows)
    ∧ (∃ rows, createTaskAssignmentNotifications taskId title ids e2
        = CallResult.returns rows)
    ∧ (handleSubmitUpdate taskId title assigned b).1 = Toast.success := by
  refine ⟨?_, ?_, ?_⟩
  · cases e1 <;> exact ⟨_, rfl⟩
  · cases e2 <;> exact ⟨_, rfl⟩
  · simp only [handleSubmitUpdate, h1, h2, createTaskAssignmentNotifications]
    by_cases hlen : assigned.length > 0
    · rw [if_pos hlen]
      by_cases hnew :
          (assigned.filter (fun uid => !(b.currentAssignments.contains uid))).length > 0
      · rw [if_pos hnew]
        cases b.notifInsertError <;> rfl
      · rw [if_neg hnew]
    · rw [if_neg hlen]

/-- Backend for the C10 witness: both task writes succeed but the
notification insert fails. -/
def failingNotifBackend : UpdateBackend :=
  { currentAssignments := [0, 1]
    taskUpdateError := none
    assignInsertError := none
    notifInsertError := some "permission denied" }

/-- A notification row for the C10 witness. -/
def sampleRow : NotifRow :=
  { user_id := 2, title := "t", message := "m", type := "assignment"
    related_type := "task", related_id := 7 }

/-- Witness for C10: with the notification insert failing, both manager
functions still return normally and the update flow still shows success. -/
theorem notification_failures_never_propagate_witness :
    (∃ rows, createNotification sampleRow (some "connection lost")
        = CallResult.returns rows)
    ∧ (∃ rows, createTaskAssignmentNotifications 7 "Fix login" [2] (some "connection lost")
        = CallResult.returns rows)
    ∧ (handleSubmitUpdate 7 "Fix login" [1, 2] failingNotifBackend).1 = Toast.success :=
  notification_failures_never_propagate sampleRow 7 "Fix login" [2]
    (some "connection lost") (some "connection lost") failingNotifBackend [1, 2] rfl rfl

/-- Ordering "newer first" used by the notification feed query
(`order('created_at', { ascending: false })`). -/
def notifGE (a b : Notif) : Prop := b.created_at ≤ a.created_at

instance : IsTotal Notif notifGE :=
  ⟨fun a b => Nat.le_total b.created_at a.created_at⟩

instance : IsTrans Notif notifGE :=
  ⟨fun _ _ _ hab hbc => Nat.le_trans hbc hab⟩

instance : DecidableRel notifGE :=
  fun _ _ => Nat.decLe _ _

/-- `fetchNotifications` from the useNotifications hook: the rows of the
current user, ordered by creation time descending, limited to 50. -/
def fetchNotifications (db : List Notif) (userId : Nat) : List Notif :=
  ((db.filter (fun n => n.user_id == userId)).insertionSort notifGE).take 50

/-- Database of exactly 50 notifications for user 1, newest first. -/
def feedDb : List Notif :=
  (List.range 50).map (fun k =>
    { id := k, user_id := 1, title := "", message := "", read := false
      created_at := 49 - k })

/-- A 51st notification for user 1, newer than all of `feedDb`. -/
def overflowNotif : Notif :=
  { id := 50, user_id := 1, title := "", message := "", read := false, created_at := 50 }

/-- Claim C9, counterexample: after fetching a full feed of 50
notifications, one realtime INSERT is prepended without re-capping, so the
held feed grows to 51 entries — more than the claimed maximum of 50. -/
theorem insert_event_exceeds_feed_cap :
    (fetchNotifications feedDb 1).length = 50
    ∧ (handleInsertEvent
        { notifications := fetchNotifications feedDb 1, unreadCount := 50 }
        overflowNotif).notifications.length = 51 := by
  have hfil : feedDb.filter (fun n => n.user_id == 1) = feedDb := by
    refine List.filter_eq_self.mpr ?_
    intro x hx
    rcases List.mem_map.mp hx with ⟨k, _, rfl⟩
    rfl
  have hdblen : feedDb.length = 50 := by
    rw [feedDb, List.length_map, List.length_range]
  have hslen : (feedDb.insertionSort notifGE).length = 50 := by
    rw [(List.perm_insertionSort notifGE feedDb).length_eq, hdblen]
  have hlen : (fetchNotifications feedDb 1).length = 50 := by
    rw [fetchNotifications, hfil, List.length_take, hslen]
    rfl
  refine ⟨hlen, ?_⟩
  show (fetchNotifications feedDb 1).length + 1 = 51
  rw [hlen]

/-- Claim C9, amended: the fetched feed is ordered by creation time
descending, capped at 50, and contains only the recipient's rows; a
realtime insert is prepended, which preserves the descending order when the
new notification is at least as recent as every held one, but grows the
list by one without re-capping (so the feed can exceed 50: see the
counterexample). -/
theorem notification_feed_properties (db : List Notif) (userId : Nat)
    (s : NotifState) (fresh : Notif)
    (hs : List.Sorted notifGE s.notifications)
    (hfr : ∀ m ∈ s.notifications, m.created_at ≤ fresh.created_at) :
    (fetchNotifications db userId).length ≤ 50
    ∧ List.Sorted notifGE (fetchNotifications db userId)
    ∧ (∀ n ∈ fetchNotifications db userId, n.user_id = userId)
    ∧ List.Sorted notifGE (handleInsertEvent s fresh).notifications
    ∧ (handleInsertEvent s fresh).notifications.length = s.notifications.length + 1 := by
  refine ⟨?_, ?_, ?_, ?_, rfl⟩
  · rw [fetchNotifications, List.length_take]
    exact min_le_left _ _
  · exact List.Pairwise.sublist (List.take_sublist _ _)
      (List.sorted_insertionSort notifGE _)
  · intro n hn
    have h1 : n ∈ (db.filter (fun m => m.user_id == userId)).insertionSort notifGE :=
      List.mem_of_mem_take hn
    have h2 : n ∈ db.filter (fun m => m.user_id == userId) :=
      (List.perm_insertionSort notifGE _).mem_iff.mp h1
    simpa using (List.mem_filter.mp h2).2
  · exact List.Pairwise.cons (fun m hm => hfr m hm) hs

/-- Two-notification feed state for the C9 witness, newest first. -/
def smallFeedState : NotifState :=
  { notifications :=
      [{ id := 1, user_id := 1, title := "", message := "", read := false, created_at := 5 },
       { id := 0, user_id := 1, title := "", message := "", read := true, created_at := 3 }]
    unreadCount := 1 }

/-- A notification newer than everything in `smallFeedState`. -/
def newerNotif : Notif :=
  { id := 2, user_id := 1, title := "", message := "", read := false, created_at := 9 }

/-- Witness for C9 at a concrete database and feed state. -/
theorem notification_feed_properties_witness :
    (fetchNotifications feedDb 1).length ≤ 50
    ∧ List.Sorted notifGE (fetchNotifications feedDb 1)
    ∧ List.Sorted notifGE (handleInsertEvent smallFeedState newerNotif).notifications
    ∧ (handleInsertEvent smallFeedState newerNotif).notifications.length
        = smallFeedState.notifications.length + 1 :=
  have h := notification_feed_properties feedDb 1 smallFeedState newerNotif
    (by decide) (by decide)
  ⟨h.1, h.2.1, h.2.2.2.1, h.2.2.2.2⟩

end DevCollab
